import Mathlib

/-!
# Verification of the Submarine-Simulator state model

A shallow embedding of the submarine physical-state model of the
Submarine-Simulator repository, together with proofs of the specified
properties.

The embedding follows the JavaScript sources:

* `SubmarineState` (the class in the state-model source file): ballast tank
  masses, kinematic and dynamic quantities, derived center of mass, and
  orientation-derived body axes.  JavaScript numbers are modelled as exact
  rationals (`ℚ`); the mutating methods become functions
  `SubmarineState → ... → SubmarineState`.
* The small vector / quaternion / matrix value types mirror the calls that the
  source makes into the `three` library (`Vector3.set`, `Vector3.cross`,
  `Vector3.applyQuaternion`, `Quaternion` default construction, `clone`).
  Under the value semantics of this embedding a `.clone()` is the identity; the
  reference-vs-copy behaviour of the getters is modelled separately by an
  explicit heap model (see the `HeapModel` section below).
* `Subamrines` (the registry class, name as in the source) with its
  `switchSubmarine` / `getSubmarine` operations and the Ohio / Typhoon preset
  construction from `Submarines.js`.
-/

/-- Value model of `THREE.Vector3`: three rational components. -/
structure Vec3 where
  x : ℚ
  y : ℚ
  z : ℚ
deriving DecidableEq, Repr

/-- Value model of `THREE.Quaternion`; the default constructor
`new THREE.Quaternion()` is `⟨0, 0, 0, 1⟩`. -/
structure Quat where
  x : ℚ
  y : ℚ
  z : ℚ
  w : ℚ
deriving DecidableEq, Repr

/-- Value model of `THREE.Matrix3`; the default constructor is the identity
matrix.  Entries are stored row-major as in the library. -/
structure Matrix3 where
  n11 : ℚ
  n12 : ℚ
  n13 : ℚ
  n21 : ℚ
  n22 : ℚ
  n23 : ℚ
  n31 : ℚ
  n32 : ℚ
  n33 : ℚ
deriving DecidableEq, Repr

/-- Constructor `new THREE.Vector3(0, 0, 0)` / `new THREE.Vector3()`. -/
def Vec3.zero : Vec3 := ⟨0, 0, 0⟩

/-- Constructor `new THREE.Quaternion()` — the identity quaternion `(0,0,0,1)`. -/
def Quat.identity : Quat := ⟨0, 0, 0, 1⟩

/-- Constructor `new THREE.Matrix3()` — the identity matrix. -/
def Matrix3.identity : Matrix3 := ⟨1, 0, 0, 0, 1, 0, 0, 0, 1⟩

/-- Method `THREE.Vector3.set(x, y, z)` (value semantics: returns the new value). -/
def Vec3.set (_v : Vec3) (x y z : ℚ) : Vec3 := ⟨x, y, z⟩

/-- Method `THREE.Vector3.dot(b)`. -/
def Vec3.dot (a b : Vec3) : ℚ := a.x * b.x + a.y * b.y + a.z * b.z

/-- Method `THREE.Vector3.cross(b)`: the value semantics of `a.cross(b)`, which in the
library overwrites `a` with the cross product `a × b` and returns it. -/
def Vec3.cross (a b : Vec3) : Vec3 :=
  ⟨a.y * b.z - a.z * b.y, a.z * b.x - a.x * b.z, a.x * b.y - a.y * b.x⟩

/-- Method `THREE.Vector3.applyQuaternion(q)`: the library computes
`t = 2 * cross(q.xyz, v)` and returns `v + q.w * t + cross(q.xyz, t)`,
which is the rotation of `v` by `q` whenever `q` is a unit quaternion. -/
def Vec3.applyQuaternion (v : Vec3) (q : Quat) : Vec3 :=
  let tx := 2 * (q.y * v.z - q.z * v.y)
  let ty := 2 * (q.z * v.x - q.x * v.z)
  let tz := 2 * (q.x * v.y - q.y * v.x)
  ⟨v.x + q.w * tx + (q.y * tz - q.z * ty),
   v.y + q.w * ty + (q.z * tx - q.x * tz),
   v.z + q.w * tz + (q.x * ty - q.y * tx)⟩

/-- A quaternion is a unit quaternion when its four components have squared
norm one. -/
def Quat.IsUnit (q : Quat) : Prop :=
  q.x ^ 2 + q.y ^ 2 + q.z ^ 2 + q.w ^ 2 = 1

instance (q : Quat) : Decidable q.IsUnit := by
  unfold Quat.IsUnit; infer_instance

/-- Constant `Math.PI`, the IEEE-754 double constant used by JavaScript, as an exact
rational. -/
def mathPI : ℚ := 884279719003555 / 281474976710656

/-- Modelled from the spec: the `SubmarineConstants` class
(`src/simulation/model/SubmarineConstants.js`) is not present under `src/`;
spec section 4.1 describes it as a pure data holder constructed once with all
geometric and material parameters and exposing read accessors only, with
`ballastTankCapacity` and the hull surface area supplied at construction.  The
field order follows the positional constructor calls in `Submarines.js`. -/
structure SubmarineConstants where
  emptyMass : ℚ
  maxMass : ℚ
  length : ℚ
  width : ℚ
  volume : ℚ
  rotorDiameter : ℚ
  maxRotorRoundPerSecond : ℚ
  sternPlaneArea : ℚ
  rudderPlaneArea : ℚ
  fairwaterPlaneArea : ℚ
  dragCoefficient : ℚ
  thrustCoefficient : ℚ
  sternCoefficient : ℚ
  rudderCoefficient : ℚ
  fairwaterCoefficient : ℚ
  centerOfBuoyancy : Vec3
  surfaceArea : ℚ
  ballastTankCapacity : ℚ
deriving DecidableEq, Repr

/-- Modelled from the spec: read accessor of the constants value object. -/
def SubmarineConstants.getBallastTankCapacity (c : SubmarineConstants) : ℚ :=
  c.ballastTankCapacity

/-- Modelled from the spec: read accessor of the constants value object. -/
def SubmarineConstants.getLength (c : SubmarineConstants) : ℚ :=
  c.length

/-- Modelled from the spec: read accessor of the constants value object. -/
def SubmarineConstants.getEmptyMass (c : SubmarineConstants) : ℚ :=
  c.emptyMass

/-- The `SubmarineState` class: the variable state of the submarine, with one
field per constructor parameter, in source order. -/
structure SubmarineState where
  currentTotalWaterMass : ℚ
  currentWaterMassFrontTank : ℚ
  currentWaterMassBackTank : ℚ
  currentRotorRPS : ℚ
  submergedVolume : ℚ
  currentDepth : ℚ
  currentSpeed : Vec3
  currentAcceleration : Vec3
  currentPosition : Vec3
  currentOrientation : Quat
  angularVelocity : Vec3
  angularAcceleration : Vec3
  weight : ℚ
  buoyancy : ℚ
  drag : ℚ
  thrust : ℚ
  sternAngle : ℚ
  rudderAngle : ℚ
  fairwaterAngle : ℚ
  momentOfInertia : Matrix3
  centerOfMass : Vec3
  submarineConstants : SubmarineConstants
deriving DecidableEq, Repr

/-- Method `getCurrentTotalWaterMass()`. -/
def SubmarineState.getCurrentTotalWaterMass (s : SubmarineState) : ℚ :=
  s.currentTotalWaterMass

/-- Method `getCurrentWaterMassFrontTank()`. -/
def SubmarineState.getCurrentWaterMassFrontTank (s : SubmarineState) : ℚ :=
  s.currentWaterMassFrontTank

/-- Method `getCurrentWaterMassBackTank()`. -/
def SubmarineState.getCurrentWaterMassBackTank (s : SubmarineState) : ℚ :=
  s.currentWaterMassBackTank

/-- Method `setCenterOfMass(centerOfMass)`. -/
def SubmarineState.setCenterOfMass (s : SubmarineState) (centerOfMass : Vec3) :
    SubmarineState :=
  { s with centerOfMass := centerOfMass }

/-- Method `autoSetCenterOfMass()`: recomputes the center of mass from the tank
imbalance.  The source contains an `if (waterInFront >= waterInBack)` whose
two branches are identical; the embedding keeps the branch. -/
def SubmarineState.autoSetCenterOfMass (s : SubmarineState) : SubmarineState :=
  let waterInFront := s.currentWaterMassFrontTank
  let waterInBack := s.currentWaterMassBackTank
  let max := s.submarineConstants.getBallastTankCapacity / 2
  let diff := waterInFront - waterInBack
  let ratio := diff / max
  let position := ratio * (s.submarineConstants.getLength / 4)
  if waterInFront ≥ waterInBack then
    s.setCenterOfMass (s.centerOfMass.set 0 0 position)
  else
    s.setCenterOfMass (s.centerOfMass.set 0 0 position)

/-- Method `setCurrentTotalWaterMass(currentTotalWaterMass)`: distributes the change
evenly over both tanks, spills overflow/underflow of each tank into the other,
clamps both tanks into `[0, maxTankCapacity]`, stores the *raw* requested
total, and recomputes the center of mass. -/
def SubmarineState.setCurrentTotalWaterMass (s : SubmarineState)
    (currentTotalWaterMass : ℚ) : SubmarineState :=
  let maxTankCapacity := s.submarineConstants.getBallastTankCapacity / 2
  let oldTotalWater := s.currentWaterMassFrontTank + s.currentWaterMassBackTank
  let totalAddedWater := currentTotalWaterMass - oldTotalWater
  let newFrontTankWater := s.currentWaterMassFrontTank + totalAddedWater / 2
  let newBackTankWater := s.currentWaterMassBackTank + totalAddedWater / 2
  let front1 :=
    if newFrontTankWater > maxTankCapacity then maxTankCapacity
    else if newFrontTankWater < 0 then 0
    else newFrontTankWater
  let back1 :=
    if newFrontTankWater > maxTankCapacity then
      newBackTankWater + (newFrontTankWater - maxTankCapacity)
    else if newFrontTankWater < 0 then newBackTankWater + newFrontTankWater
    else newBackTankWater
  let back2 :=
    if back1 > maxTankCapacity then maxTankCapacity
    else if back1 < 0 then 0
    else back1
  let front2 :=
    if back1 > maxTankCapacity then front1 + (back1 - maxTankCapacity)
    else if back1 < 0 then front1 + back1
    else front1
  SubmarineState.autoSetCenterOfMass
    { s with
      currentWaterMassFrontTank := min (max front2 0) maxTankCapacity
      currentWaterMassBackTank := min (max back2 0) maxTankCapacity
      currentTotalWaterMass := currentTotalWaterMass }

/-- Method `setCurrentWaterMassFrontTank(v)`: stores the sum of the new front mass and
the current back mass as the total, assigns the front tank directly (no
clamping), and recomputes the center of mass. -/
def SubmarineState.setCurrentWaterMassFrontTank (s : SubmarineState) (v : ℚ) :
    SubmarineState :=
  SubmarineState.autoSetCenterOfMass
    { s with
      currentTotalWaterMass := v + s.getCurrentWaterMassBackTank
      currentWaterMassFrontTank := v }

/-- Method `setCurrentWaterMassBackTank(v)`: symmetric direct setter for the back
tank. -/
def SubmarineState.setCurrentWaterMassBackTank (s : SubmarineState) (v : ℚ) :
    SubmarineState :=
  SubmarineState.autoSetCenterOfMass
    { s with
      currentTotalWaterMass := v + s.getCurrentWaterMassFrontTank
      currentWaterMassBackTank := v }

/-- Method `getCurrentOrientation()` returns `this.currentOrientation.clone()`; under
value semantics the clone is the value itself. -/
def SubmarineState.getCurrentOrientation (s : SubmarineState) : Quat :=
  s.currentOrientation

/-- Method `getForwardAxis()`: the unit vector `(0,0,1)` rotated by the current
orientation. -/
def SubmarineState.getForwardAxis (s : SubmarineState) : Vec3 :=
  (Vec3.mk 0 0 1).applyQuaternion s.getCurrentOrientation

/-- Method `getUpAxis()`: the unit vector `(0,1,0)` rotated by the current
orientation. -/
def SubmarineState.getUpAxis (s : SubmarineState) : Vec3 :=
  (Vec3.mk 0 1 0).applyQuaternion s.getCurrentOrientation

/-- Method `getRightAxis()`: `upAxis.cross(forwardAxis)` — the cross product with the
up axis as left operand. -/
def SubmarineState.getRightAxis (s : SubmarineState) : Vec3 :=
  s.getUpAxis.cross s.getForwardAxis

/-- Method `getCurrentMass()`: total water mass plus the empty mass constant. -/
def SubmarineState.getCurrentMass (s : SubmarineState) : ℚ :=
  s.currentTotalWaterMass + s.submarineConstants.getEmptyMass

/-- Method `getTanksDifferenceMass()`: the absolute tank imbalance, written in the
source as `max - min` of the two tank masses. -/
def SubmarineState.getTanksDifferenceMass (s : SubmarineState) : ℚ :=
  max s.currentWaterMassFrontTank s.currentWaterMassBackTank -
    min s.currentWaterMassFrontTank s.currentWaterMassBackTank

/-- Modelled from the spec: the `SubmarineType` enum file is not present under
`src/`; the spec names the vehicle-class identifiers "Ohio" and "Typhoon", and
the enum values are used as string keys of the registry's `items` object. -/
def SubmarineType.Ohio : String := "Ohio"

/-- Modelled from the spec: the Typhoon vehicle-class identifier. -/
def SubmarineType.Typhoon : String := "Typhoon"

/-- Modelled from the spec: the `Events` tag used by the registry's switch
notification; the spec states the notification carries no payload beyond the
event tag itself. -/
inductive Event where
  | SwitchSubmarine
deriving DecidableEq, Repr

/-- Class `Submarine`: pairs one constants instance, one state instance and the
vehicle-class identifier. -/
structure Submarine where
  constants : SubmarineConstants
  state : SubmarineState
  type : String
deriving DecidableEq, Repr

/-- Method `getConstants()`. -/
def Submarine.getConstants (sub : Submarine) : SubmarineConstants :=
  sub.constants

/-- Method `getState()`. -/
def Submarine.getState (sub : Submarine) : SubmarineState :=
  sub.state

/-- Method `getType()`. -/
def Submarine.getType (sub : Submarine) : String :=
  sub.type

/-- Method `initOhio()` of the registry class: the Ohio preset, with the
literal constant table of `Submarines.js`.  Decimal literals are read as exact
rationals. -/
def initOhio : Submarine :=
  let emptyMass : ℚ := 16764000
  let maxMass : ℚ := 36528000
  let length : ℚ := 170
  let width : ℚ := 13
  let volume : ℚ := 32710.243902
  let rotorDiameter : ℚ := 4
  let maxRotorRoundPerSecond : ℚ := 10
  let sternPlaneArea : ℚ := 5
  let rudderPlaneArea : ℚ := 7
  let fairwaterPlaneArea : ℚ := 3
  let dragCoefficient : ℚ := 1.9
  let thrustCoefficient : ℚ := 0.8044923775964
  let sternCoefficient : ℚ := 0.8
  let rudderCoefficient : ℚ := 0.7
  let fairetwaterCoefficient : ℚ := 0.6
  let centerOfBuoyancy : Vec3 := ⟨0, 0, 0⟩
  let radius : ℚ := width / 2
  let surfaceArea : ℚ := 2 * mathPI * radius * (radius + length)
  let ballastTankCapacity : ℚ := maxMass - emptyMass
  let currentTotalWaterMass : ℚ := 0
  let halfCurrentTotalWaterMass : ℚ := currentTotalWaterMass / 2
  let currentWaterMassFrontTank : ℚ := halfCurrentTotalWaterMass
  let currentWaterMassBackTank : ℚ := halfCurrentTotalWaterMass
  let currentRotorRPS : ℚ := 0
  let sternAngle : ℚ := 0
  let rudderAngle : ℚ := 0
  let fairwaterAngle : ℚ := 0
  let submergedVolume : ℚ := 0
  let currentDepth : ℚ := 0
  let currentSpeed : Vec3 := ⟨0, 0, 0⟩
  let currentAcceleration : Vec3 := ⟨0, 0, 0⟩
  let currentPosition : Vec3 := ⟨0, 0, 0⟩
  let currentOrientation : Quat := Quat.identity
  let angularVelocity : Vec3 := ⟨0, 0, 0⟩
  let angularAcceleration : Vec3 := ⟨0, 0, 0⟩
  let weight : ℚ := 0
  let buoyancy : ℚ := 0
  let drag : ℚ := 0
  let thrust : ℚ := 0
  let momentOfInertia : Matrix3 := Matrix3.identity
  let centerOfMass : Vec3 := ⟨0, 0, 0⟩
  let ohioSubmarineConstants : SubmarineConstants :=
    ⟨emptyMass, maxMass, length, width, volume, rotorDiameter,
     maxRotorRoundPerSecond, sternPlaneArea, rudderPlaneArea,
     fairwaterPlaneArea, dragCoefficient, thrustCoefficient, sternCoefficient,
     rudderCoefficient, fairetwaterCoefficient, centerOfBuoyancy, surfaceArea,
     ballastTankCapacity⟩
  let ohioSubmarineState : SubmarineState :=
    ⟨currentTotalWaterMass, currentWaterMassFrontTank, currentWaterMassBackTank,
     currentRotorRPS, submergedVolume, currentDepth, currentSpeed,
     currentAcceleration, currentPosition, currentOrientation, angularVelocity,
     angularAcceleration, weight, buoyancy, drag, thrust, sternAngle,
     rudderAngle, fairwaterAngle, momentOfInertia, centerOfMass,
     ohioSubmarineConstants⟩
  ⟨ohioSubmarineConstants, ohioSubmarineState, SubmarineType.Ohio⟩

/-- Method `initTyphoon()` of the registry class: the Typhoon preset, with the
literal constant table of `Submarines.js`. -/
def initTyphoon : Submarine :=
  let emptyMass : ℚ := 23200000
  let maxMass : ℚ := 48000000
  let length : ℚ := 175
  let width : ℚ := 23
  let volume : ℚ := 31102.439025
  let rotorDiameter : ℚ := 7
  let maxRotorRoundPerSecond : ℚ := 10
  let sternPlaneArea : ℚ := 8
  let rudderPlaneArea : ℚ := 14
  let fairwaterPlaneArea : ℚ := 5
  let dragCoefficient : ℚ := 1.9
  let thrustCoefficient : ℚ := 0.317622429678
  let sternCoefficient : ℚ := 0.8
  let rudderCoefficient : ℚ := 0.98
  let fairetwaterCoefficient : ℚ := 0.5
  let centerOfBuoyancy : Vec3 := ⟨0, 0, 0⟩
  let radius : ℚ := width / 2
  let surfaceArea : ℚ := 2 * mathPI * radius * (radius + length)
  let ballastTankCapacity : ℚ := maxMass - emptyMass
  let currentTotalWaterMass : ℚ := 0
  let halfCurrentTotalWaterMass : ℚ := currentTotalWaterMass / 2
  let currentWaterMassFrontTank : ℚ := halfCurrentTotalWaterMass
  let currentWaterMassBackTank : ℚ := halfCurrentTotalWaterMass
  let currentRotorRPS : ℚ := 0
  let sternAngle : ℚ := 0
  let rudderAngle : ℚ := 0
  let fairwaterAngle : ℚ := 0
  let submergedVolume : ℚ := 0
  let currentDepth : ℚ := 0
  let currentSpeed : Vec3 := ⟨0, 0, 0⟩
  let currentAcceleration : Vec3 := ⟨0, 0, 0⟩
  let currentPosition : Vec3 := ⟨0, 0, 0⟩
  let currentOrientation : Quat := Quat.identity
  let angularVelocity : Vec3 := ⟨0, 0, 0⟩
  let angularAcceleration : Vec3 := ⟨0, 0, 0⟩
  let weight : ℚ := 0
  let buoyancy : ℚ := 0
  let drag : ℚ := 0
  let thrust : ℚ := 0
  let momentOfInertia : Matrix3 := Matrix3.identity
  let centerOfMass : Vec3 := ⟨0, 0, 0⟩
  let typhoonSubmarineConstants : SubmarineConstants :=
    ⟨emptyMass, maxMass, length, width, volume, rotorDiameter,
     maxRotorRoundPerSecond, sternPlaneArea, rudderPlaneArea,
     fairwaterPlaneArea, dragCoefficient, thrustCoefficient, sternCoefficient,
     rudderCoefficient, fairetwaterCoefficient, centerOfBuoyancy, surfaceArea,
     ballastTankCapacity⟩
  let typhoonSubmarineState : SubmarineState :=
    ⟨currentTotalWaterMass, currentWaterMassFrontTank, currentWaterMassBackTank,
     currentRotorRPS, submergedVolume, currentDepth, currentSpeed,
     currentAcceleration, currentPosition, currentOrientation, angularVelocity,
     angularAcceleration, weight, buoyancy, drag, thrust, sternAngle,
     rudderAngle, fairwaterAngle, momentOfInertia, centerOfMass,
     typhoonSubmarineConstants⟩
  ⟨typhoonSubmarineConstants, typhoonSubmarineState, SubmarineType.Typhoon⟩

/-- Class `Subamrines` (source spelling): the registry.  The JavaScript object
dictionary `this.items` is modelled as a map from identifier strings to
optional submarines, where `none` is JavaScript `undefined` for an absent key.
The `events` list models the synchronous `trigger` notifications of the
`EventEmitter` base class; the emitter file is not present under `src/` and is
modelled from the spec: a synchronous "vehicle switched" notification delivered
to observers with no payload beyond the event tag. -/
structure Subamrines where
  items : String → Option Submarine
  current : Option Submarine
  events : List Event

/-- Constructor `new Subamrines()` followed by `initItems()`: registers the
Ohio and Typhoon presets under their identifiers and makes Typhoon current. -/
def Subamrines.init : Subamrines :=
  let items : String → Option Submarine := fun id =>
    if id = SubmarineType.Ohio then some initOhio
    else if id = SubmarineType.Typhoon then some initTyphoon
    else none
  ⟨items, items SubmarineType.Typhoon, []⟩

/-- Method `switchSubmarine(submarine)`: reassigns `current` to the looked-up
entry (JavaScript `undefined`, i.e. `none`, when absent) and then triggers the
`SwitchSubmarine` event unconditionally. -/
def Subamrines.switchSubmarine (m : Subamrines) (submarine : String) :
    Subamrines :=
  { m with
    current := m.items submarine
    events := m.events ++ [Event.SwitchSubmarine] }

/-- Method `getCurrentSubmarine()`. -/
def Subamrines.getCurrentSubmarine (m : Subamrines) : Option Submarine :=
  m.current

/-- Method `getSubmarine(type)`: plain dictionary lookup; an unregistered
identifier yields JavaScript `undefined`, i.e. `none`. -/
def Subamrines.getSubmarine (m : Subamrines) (type : String) :
    Option Submarine :=
  m.items type

/-!
## Heap model of getter aliasing

The value-semantics embedding above cannot express the difference between a
getter returning `this.field.clone()` and a getter returning `this.field`
directly.  This section models exactly that: a heap maps natural-number
references to `three` objects, the state class holds references for every
object-valued field (JavaScript numbers are immutable values, not references,
so the scalar fields play no role here), `clone()` allocates a fresh cell
holding a copy, and returning `this.field` returns the internal reference.
Each getter below mirrors the corresponding method body of the state class
source: `getCurrentSpeed`, `getCurrentAcceleration`, `getCurrentPosition`,
`getCurrentOrientation`, `getAngularVelocity` and `getAngularAcceleration`
return clones, while `getMomentOfInertia` and `getCenterOfMass` return the
stored field itself.
-/

/-- Heap values: the `three` object types held by reference in the state. -/
inductive HVal where
  | vec3 : Vec3 → HVal
  | quat : Quat → HVal
  | mat3 : Matrix3 → HVal
deriving DecidableEq, Repr

/-- A heap: a store of object cells and an allocation bound.  References are
cell indices below `next`. -/
structure Heap where
  data : Nat → HVal
  next : Nat

/-- Reading the object behind a reference. -/
def Heap.read (h : Heap) (r : Nat) : HVal :=
  h.data r

/-- Mutating the object behind a reference in place (what a caller does to a
returned `three` object). -/
def Heap.write (h : Heap) (r : Nat) (v : HVal) : Heap :=
  ⟨fun i => if i = r then v else h.data i, h.next⟩

/-- Allocating a fresh object (what `clone()` does), returning the new heap and
the fresh reference. -/
def Heap.alloc (h : Heap) (v : HVal) : Heap × Nat :=
  (⟨fun i => if i = h.next then v else h.data i, h.next + 1⟩, h.next)

/-- Reference-semantics mirror of the state class: one reference per
object-valued field, in source order. -/
structure SubmarineStateH where
  currentSpeed : Nat
  currentAcceleration : Nat
  currentPosition : Nat
  currentOrientation : Nat
  angularVelocity : Nat
  angularAcceleration : Nat
  momentOfInertia : Nat
  centerOfMass : Nat
deriving DecidableEq, Repr

/-- Well-formedness: every internal reference is an allocated cell. -/
def SubmarineStateH.WF (s : SubmarineStateH) (h : Heap) : Prop :=
  s.currentSpeed < h.next ∧ s.currentAcceleration < h.next ∧
  s.currentPosition < h.next ∧ s.currentOrientation < h.next ∧
  s.angularVelocity < h.next ∧ s.angularAcceleration < h.next ∧
  s.momentOfInertia < h.next ∧ s.centerOfMass < h.next

/-- Method `getCurrentSpeed()`: `return this.currentSpeed.clone();`. -/
def SubmarineStateH.getCurrentSpeed (s : SubmarineStateH) (h : Heap) :
    Heap × Nat :=
  h.alloc (h.read s.currentSpeed)

/-- Method `getCurrentAcceleration()`: returns a clone. -/
def SubmarineStateH.getCurrentAcceleration (s : SubmarineStateH) (h : Heap) :
    Heap × Nat :=
  h.alloc (h.read s.currentAcceleration)

/-- Method `getCurrentPosition()`: returns a clone. -/
def SubmarineStateH.getCurrentPosition (s : SubmarineStateH) (h : Heap) :
    Heap × Nat :=
  h.alloc (h.read s.currentPosition)

/-- Method `getCurrentOrientation()`: returns a clone. -/
def SubmarineStateH.getCurrentOrientation (s : SubmarineStateH) (h : Heap) :
    Heap × Nat :=
  h.alloc (h.read s.currentOrientation)

/-- Method `getAngularVelocity()`: returns a clone. -/
def SubmarineStateH.getAngularVelocity (s : SubmarineStateH) (h : Heap) :
    Heap × Nat :=
  h.alloc (h.read s.angularVelocity)

/-- Method `getAngularAcceleration()`: returns a clone. -/
def SubmarineStateH.getAngularAcceleration (s : SubmarineStateH) (h : Heap) :
    Heap × Nat :=
  h.alloc (h.read s.angularAcceleration)

/-- Method `getMomentOfInertia()`: `return this.momentOfInertia;` — the
internal reference, no clone. -/
def SubmarineStateH.getMomentOfInertia (s : SubmarineStateH) (h : Heap) :
    Heap × Nat :=
  (h, s.momentOfInertia)

/-- Method `getCenterOfMass()`: `return this.centerOfMass;` — the internal
reference, no clone. -/
def SubmarineStateH.getCenterOfMass (s : SubmarineStateH) (h : Heap) :
    Heap × Nat :=
  (h, s.centerOfMass)

/-- A concrete eight-cell heap for the aliasing counterexample: every cell
holds the zero vector. -/
def heap0 : Heap :=
  ⟨fun _ => HVal.vec3 ⟨0, 0, 0⟩, 8⟩

/-- A concrete well-formed reference state over `heap0`, one distinct cell per
object-valued field. -/
def stateH0 : SubmarineStateH :=
  ⟨0, 1, 2, 3, 4, 5, 6, 7⟩

/-!
## Helper lemmas

Projection lemmas for `autoSetCenterOfMass`, a characterization of
`setCurrentTotalWaterMass` and of the two direct tank setters, and the pure
arithmetic of the spill-and-clamp redistribution.
-/

theorem autoSetCenterOfMass_front (s : SubmarineState) :
    s.autoSetCenterOfMass.currentWaterMassFrontTank =
      s.currentWaterMassFrontTank := by
  unfold SubmarineState.autoSetCenterOfMass SubmarineState.setCenterOfMass
  dsimp only
  split_ifs <;> rfl

theorem autoSetCenterOfMass_back (s : SubmarineState) :
    s.autoSetCenterOfMass.currentWaterMassBackTank =
      s.currentWaterMassBackTank := by
  unfold SubmarineState.autoSetCenterOfMass SubmarineState.setCenterOfMass
  dsimp only
  split_ifs <;> rfl

theorem autoSetCenterOfMass_total (s : SubmarineState) :
    s.autoSetCenterOfMass.currentTotalWaterMass = s.currentTotalWaterMass := by
  unfold SubmarineState.autoSetCenterOfMass SubmarineState.setCenterOfMass
  dsimp only
  split_ifs <;> rfl

theorem autoSetCenterOfMass_constants (s : SubmarineState) :
    s.autoSetCenterOfMass.submarineConstants = s.submarineConstants := by
  unfold SubmarineState.autoSetCenterOfMass SubmarineState.setCenterOfMass
  dsimp only
  split_ifs <;> rfl

theorem autoSetCenterOfMass_com (s : SubmarineState) :
    s.autoSetCenterOfMass.centerOfMass =
      ⟨0, 0, (s.currentWaterMassFrontTank - s.currentWaterMassBackTank) /
        (s.submarineConstants.getBallastTankCapacity / 2) *
        (s.submarineConstants.getLength / 4)⟩ := by
  unfold SubmarineState.autoSetCenterOfMass SubmarineState.setCenterOfMass
    Vec3.set
  dsimp only
  split_ifs <;> rfl

theorem clampSpill_spec (f b m nt : ℚ)
    (hf0 : 0 ≤ f) (hf1 : f ≤ m) (hb0 : 0 ≤ b) (hb1 : b ≤ m)
    (hn0 : 0 ≤ nt) (hn1 : nt ≤ 2 * m) :
    ∀ nf nb front1 back1 back2 front2 : ℚ,
      nf = f + (nt - (f + b)) / 2 →
      nb = b + (nt - (f + b)) / 2 →
      front1 = (if nf > m then m else if nf < 0 then 0 else nf) →
      back1 = (if nf > m then nb + (nf - m)
        else if nf < 0 then nb + nf else nb) →
      back2 = (if back1 > m then m else if back1 < 0 then 0 else back1) →
      front2 = (if back1 > m then front1 + (back1 - m)
        else if back1 < 0 then front1 + back1 else front1) →
      min (max front2 0) m + min (max back2 0) m = nt ∧
        0 ≤ min (max front2 0) m ∧ min (max front2 0) m ≤ m ∧
        0 ≤ min (max back2 0) m ∧ min (max back2 0) m ≤ m := by
  intro nf nb front1 back1 back2 front2 hnf hnb h1 h2 h3 h4
  split_ifs at h1 h2 h3 h4 <;>
  · have h0f : (0:ℚ) ≤ front2 := by linarith
    have hfm : front2 ≤ m := by linarith
    have h0b : (0:ℚ) ≤ back2 := by linarith
    have hbm : back2 ≤ m := by linarith
    rw [max_eq_left h0f, min_eq_left hfm, max_eq_left h0b, min_eq_left hbm]
    exact ⟨by linarith, h0f, hfm, h0b, hbm⟩

theorem clamp_bounds (x m : ℚ) (hm : 0 ≤ m) :
    0 ≤ min (max x 0) m ∧ min (max x 0) m ≤ m :=
  ⟨le_min (le_max_right x 0) hm, min_le_right _ _⟩

theorem setCurrentTotalWaterMass_char (s : SubmarineState) (nt : ℚ) :
    (s.setCurrentTotalWaterMass nt).currentWaterMassFrontTank =
        min (max (if (if (s.currentWaterMassFrontTank + (nt - (s.currentWaterMassFrontTank + s.currentWaterMassBackTank)) / 2) > (s.submarineConstants.ballastTankCapacity / 2) then (s.currentWaterMassBackTank + (nt - (s.currentWaterMassFrontTank + s.currentWaterMassBackTank)) / 2) + ((s.currentWaterMassFrontTank + (nt - (s.currentWaterMassFrontTank + s.currentWaterMassBackTank)) / 2) - (s.submarineConstants.ballastTankCapacity / 2)) else if (s.currentWaterMassFrontTank + (nt - (s.currentWaterMassFrontTank + s.currentWaterMassBackTank)) / 2) < 0 then (s.currentWaterMassBackTank + (nt - (s.currentWaterMassFrontTank + s.currentWaterMassBackTank)) / 2) + (s.currentWaterMassFrontTank + (nt - (s.currentWaterMassFrontTank + s.currentWaterMassBackTank)) / 2) else (s.currentWaterMassBackTank + (nt - (s.currentWaterMassFrontTank + s.currentWaterMassBackTank)) / 2)) > (s.submarineConstants.ballastTankCapacity / 2) then (if (s.currentWaterMassFrontTank + (nt - (s.currentWaterMassFrontTank + s.currentWaterMassBackTank)) / 2) > (s.submarineConstants.ballastTankCapacity / 2) then (s.submarineConstants.ballastTankCapacity / 2) else if (s.currentWaterMassFrontTank + (nt - (s.currentWaterMassFrontTank + s.currentWaterMassBackTank)) / 2) < 0 then 0 else (s.currentWaterMassFrontTank + (nt - (s.currentWaterMassFrontTank + s.currentWaterMassBackTank)) / 2)) + ((if (s.currentWaterMassFrontTank + (nt - (s.currentWaterMassFrontTank + s.currentWaterMassBackTank)) / 2) > (s.submarineConstants.ballastTankCapacity / 2) then (s.currentWaterMassBackTank + (nt - (s.currentWaterMassFrontTank + s.currentWaterMassBackTank)) / 2) + ((s.currentWaterMassFrontTank + (nt - (s.currentWaterMassFrontTank + s.currentWaterMassBackTank)) / 2) - (s.submarineConstants.ballastTankCapacity / 2)) else if (s.currentWaterMassFrontTank + (nt - (s.currentWaterMassFrontTank + s.currentWaterMassBackTank)) / 2) < 0 then (s.currentWaterMassBackTank + (nt - (s.currentWaterMassFrontTank + s.currentWaterMassBackTank)) / 2) + (s.currentWaterMassFrontTank + (nt - (s.currentWaterMassFrontTank + s.currentWaterMassBackTank)) / 2) else (s.currentWaterMassBackTank + (nt - (s.currentWaterMassFrontTank + s.currentWaterMassBackTank)) / 2)) - (s.submarineConstants.ballastTankCapacity / 2)) else if (if (s.currentWaterMassFrontTank + (nt - (s.currentWaterMassFrontTank + s.currentWaterMassBackTank)) / 2) > (s.submarineConstants.ballastTankCapacity / 2) then (s.currentWaterMassBackTank + (nt - (s.currentWaterMassFrontTank + s.currentWaterMassBackTank)) / 2) + ((s.currentWaterMassFrontTank + (nt - (s.currentWaterMassFrontTank + s.currentWaterMassBackTank)) / 2) - (s.submarineConstants.ballastTankCapacity / 2)) else if (s.currentWaterMassFrontTank + (nt - (s.currentWaterMassFrontTank + s.currentWaterMassBackTank)) / 2) < 0 then (s.currentWaterMassBackTank + (nt - (s.currentWaterMassFrontTank + s.currentWaterMassBackTank)) / 2) + (s.currentWaterMassFrontTank + (nt - (s.currentWaterMassFrontTank + s.currentWaterMassBackTank)) / 2) else (s.currentWaterMassBackTank + (nt - (s.currentWaterMassFrontTank + s.currentWaterMassBackTank)) / 2)) < 0 then (if (s.currentWaterMassFrontTank + (nt - (s.currentWaterMassFrontTank + s.currentWaterMassBackTank)) / 2) > (s.submarineConstants.ballastTankCapacity / 2) then (s.submarineConstants.ballastTankCapacity / 2) else if (s.currentWaterMassFrontTank + (nt - (s.currentWaterMassFrontTank + s.currentWaterMassBackTank)) / 2) < 0 then 0 else (s.currentWaterMassFrontTank + (nt - (s.currentWaterMassFrontTank + s.currentWaterMassBackTank)) / 2)) + (if (s.currentWaterMassFrontTank + (nt - (s.currentWaterMassFrontTank + s.currentWaterMassBackTank)) / 2) > (s.submarineConstants.ballastTankCapacity / 2) then (s.currentWaterMassBackTank + (nt - (s.currentWaterMassFrontTank + s.currentWaterMassBackTank)) / 2) + ((s.currentWaterMassFrontTank + (nt - (s.currentWaterMassFrontTank + s.currentWaterMassBackTank)) / 2) - (s.submarineConstants.ballastTankCapacity / 2)) else if (s.currentWaterMassFrontTank + (nt - (s.currentWaterMassFrontTank + s.currentWaterMassBackTank)) / 2) < 0 then (s.currentWaterMassBackTank + (nt - (s.currentWaterMassFrontTank + s.currentWaterMassBackTank)) / 2) + (s.currentWaterMassFrontTank + (nt - (s.currentWaterMassFrontTank + s.currentWaterMassBackTank)) / 2) else (s.currentWaterMassBackTank + (nt - (s.currentWaterMassFrontTank + s.currentWaterMassBackTank)) / 2)) else (if (s.currentWaterMassFrontTank + (nt - (s.currentWaterMassFrontTank + s.currentWaterMassBackTank)) / 2) > (s.submarineConstants.ballastTankCapacity / 2) then (s.submarineConstants.ballastTankCapacity / 2) else if (s.currentWaterMassFrontTank + (nt - (s.currentWaterMassFrontTank + s.currentWaterMassBackTank)) / 2) < 0 then 0 else (s.currentWaterMassFrontTank + (nt - (s.currentWaterMassFrontTank + s.currentWaterMassBackTank)) / 2))) 0) (s.submarineConstants.ballastTankCapacity / 2) ∧
      (s.setCurrentTotalWaterMass nt).currentWaterMassBackTank =
        min (max (if (if (s.currentWaterMassFrontTank + (nt - (s.currentWaterMassFrontTank + s.currentWaterMassBackTank)) / 2) > (s.submarineConstants.ballastTankCapacity / 2) then (s.currentWaterMassBackTank + (nt - (s.currentWaterMassFrontTank + s.currentWaterMassBackTank)) / 2) + ((s.currentWaterMassFrontTank + (nt - (s.currentWaterMassFrontTank + s.currentWaterMassBackTank)) / 2) - (s.submarineConstants.ballastTankCapacity / 2)) else if (s.currentWaterMassFrontTank + (nt - (s.currentWaterMassFrontTank + s.currentWaterMassBackTank)) / 2) < 0 then (s.currentWaterMassBackTank + (nt - (s.currentWaterMassFrontTank + s.currentWaterMassBackTank)) / 2) + (s.currentWaterMassFrontTank + (nt - (s.currentWaterMassFrontTank + s.currentWaterMassBackTank)) / 2) else (s.currentWaterMassBackTank + (nt - (s.currentWaterMassFrontTank + s.currentWaterMassBackTank)) / 2)) > (s.submarineConstants.ballastTankCapacity / 2) then (s.submarineConstants.ballastTankCapacity / 2) else if (if (s.currentWaterMassFrontTank + (nt - (s.currentWaterMassFrontTank + s.currentWaterMassBackTank)) / 2) > (s.submarineConstants.ballastTankCapacity / 2) then (s.currentWaterMassBackTank + (nt - (s.currentWaterMassFrontTank + s.currentWaterMassBackTank)) / 2) + ((s.currentWaterMassFrontTank + (nt - (s.currentWaterMassFrontTank + s.currentWaterMassBackTank)) / 2) - (s.submarineConstants.ballastTankCapacity / 2)) else if (s.currentWaterMassFrontTank + (nt - (s.currentWaterMassFrontTank + s.currentWaterMassBackTank)) / 2) < 0 then (s.currentWaterMassBackTank + (nt - (s.currentWaterMassFrontTank + s.currentWaterMassBackTank)) / 2) + (s.currentWaterMassFrontTank + (nt - (s.currentWaterMassFrontTank + s.currentWaterMassBackTank)) / 2) else (s.currentWaterMassBackTank + (nt - (s.currentWaterMassFrontTank + s.currentWaterMassBackTank)) / 2)) < 0 then 0 else (if (s.currentWaterMassFrontTank + (nt - (s.currentWaterMassFrontTank + s.currentWaterMassBackTank)) / 2) > (s.submarineConstants.ballastTankCapacity / 2) then (s.currentWaterMassBackTank + (nt - (s.currentWaterMassFrontTank + s.currentWaterMassBackTank)) / 2) + ((s.currentWaterMassFrontTank + (nt - (s.currentWaterMassFrontTank + s.currentWaterMassBackTank)) / 2) - (s.submarineConstants.ballastTankCapacity / 2)) else if (s.currentWaterMassFrontTank + (nt - (s.currentWaterMassFrontTank + s.currentWaterMassBackTank)) / 2) < 0 then (s.currentWaterMassBackTank + (nt - (s.currentWaterMassFrontTank + s.currentWaterMassBackTank)) / 2) + (s.currentWaterMassFrontTank + (nt - (s.currentWaterMassFrontTank + s.currentWaterMassBackTank)) / 2) else (s.currentWaterMassBackTank + (nt - (s.currentWaterMassFrontTank + s.currentWaterMassBackTank)) / 2))) 0) (s.submarineConstants.ballastTankCapacity / 2) ∧
      (s.setCurrentTotalWaterMass nt).currentTotalWaterMass = nt := by
  unfold SubmarineState.setCurrentTotalWaterMass
  simp only [autoSetCenterOfMass_front, autoSetCenterOfMass_back,
    autoSetCenterOfMass_total, SubmarineConstants.getBallastTankCapacity]
  exact ⟨trivial, trivial, trivial⟩

theorem setCurrentWaterMassFrontTank_char (s : SubmarineState) (v : ℚ) :
    (s.setCurrentWaterMassFrontTank v).currentWaterMassFrontTank = v ∧
      (s.setCurrentWaterMassFrontTank v).currentWaterMassBackTank =
        s.currentWaterMassBackTank ∧
      (s.setCurrentWaterMassFrontTank v).currentTotalWaterMass =
        v + s.currentWaterMassBackTank := by
  unfold SubmarineState.setCurrentWaterMassFrontTank
    SubmarineState.getCurrentWaterMassBackTank
  simp only [autoSetCenterOfMass_front, autoSetCenterOfMass_back,
    autoSetCenterOfMass_total]
  exact ⟨trivial, trivial, trivial⟩

theorem setCurrentWaterMassBackTank_char (s : SubmarineState) (v : ℚ) :
    (s.setCurrentWaterMassBackTank v).currentWaterMassBackTank = v ∧
      (s.setCurrentWaterMassBackTank v).currentWaterMassFrontTank =
        s.currentWaterMassFrontTank ∧
      (s.setCurrentWaterMassBackTank v).currentTotalWaterMass =
        v + s.currentWaterMassFrontTank := by
  unfold SubmarineState.setCurrentWaterMassBackTank
    SubmarineState.getCurrentWaterMassFrontTank
  simp only [autoSetCenterOfMass_front, autoSetCenterOfMass_back,
    autoSetCenterOfMass_total]
  exact ⟨trivial, trivial, trivial⟩

/-!
## Claim theorems
-/

/-- C1: for every state whose front and back tank masses both lie in
`[0, ballastTankCapacity/2]` and every requested `newTotal` in
`[0, ballastTankCapacity]`, after `setCurrentTotalWaterMass(newTotal)` the sum
of the tank masses equals `newTotal`, both tank masses lie in
`[0, ballastTankCapacity/2]`, and the stored `currentTotalWaterMass` equals
`newTotal` exactly. -/
theorem C1_setTotal_conserves_and_clamps (s : SubmarineState) (nt : ℚ)
    (hf0 : 0 ≤ s.currentWaterMassFrontTank)
    (hf1 : s.currentWaterMassFrontTank ≤
      s.submarineConstants.ballastTankCapacity / 2)
    (hb0 : 0 ≤ s.currentWaterMassBackTank)
    (hb1 : s.currentWaterMassBackTank ≤
      s.submarineConstants.ballastTankCapacity / 2)
    (hn0 : 0 ≤ nt) (hn1 : nt ≤ s.submarineConstants.ballastTankCapacity) :
    (s.setCurrentTotalWaterMass nt).currentWaterMassFrontTank +
        (s.setCurrentTotalWaterMass nt).currentWaterMassBackTank = nt ∧
      0 ≤ (s.setCurrentTotalWaterMass nt).currentWaterMassFrontTank ∧
      (s.setCurrentTotalWaterMass nt).currentWaterMassFrontTank ≤
        s.submarineConstants.ballastTankCapacity / 2 ∧
      0 ≤ (s.setCurrentTotalWaterMass nt).currentWaterMassBackTank ∧
      (s.setCurrentTotalWaterMass nt).currentWaterMassBackTank ≤
        s.submarineConstants.ballastTankCapacity / 2 ∧
      (s.setCurrentTotalWaterMass nt).currentTotalWaterMass = nt := by
  obtain ⟨hfe, hbe, hte⟩ := setCurrentTotalWaterMass_char s nt
  rw [hfe, hbe, hte]
  have hspec := clampSpill_spec s.currentWaterMassFrontTank
    s.currentWaterMassBackTank (s.submarineConstants.ballastTankCapacity / 2)
    nt hf0 hf1 hb0 hb1 hn0 (by linarith) _ _ _ _ _ _ rfl rfl rfl rfl rfl rfl
  exact ⟨hspec.1, hspec.2.1, hspec.2.2.1, hspec.2.2.2.1, hspec.2.2.2.2, rfl⟩

/-- Witness for C1: the Ohio preset state (both tanks zero, capacity
19,764,000) with requested total 1000. -/
theorem C1_witness :
    (initOhio.state.setCurrentTotalWaterMass 1000).currentWaterMassFrontTank +
        (initOhio.state.setCurrentTotalWaterMass 1000).currentWaterMassBackTank
          = 1000 ∧
      0 ≤ (initOhio.state.setCurrentTotalWaterMass
        1000).currentWaterMassFrontTank ∧
      (initOhio.state.setCurrentTotalWaterMass
        1000).currentWaterMassFrontTank ≤
        initOhio.state.submarineConstants.ballastTankCapacity / 2 ∧
      0 ≤ (initOhio.state.setCurrentTotalWaterMass
        1000).currentWaterMassBackTank ∧
      (initOhio.state.setCurrentTotalWaterMass 1000).currentWaterMassBackTank ≤
        initOhio.state.submarineConstants.ballastTankCapacity / 2 ∧
      (initOhio.state.setCurrentTotalWaterMass 1000).currentTotalWaterMass =
        1000 :=
  C1_setTotal_conserves_and_clamps initOhio.state 1000
    (by norm_num [initOhio]) (by norm_num [initOhio]) (by norm_num [initOhio])
    (by norm_num [initOhio]) (by norm_num) (by norm_num [initOhio])

/-- C2: `setCurrentTotalWaterMass` always stores the raw requested value in
`currentTotalWaterMass`; and on the Ohio preset (capacity 19,764,000),
requesting 30,000,000 from zero ballast clamps both tanks to 9,882,000 while
the stored total is 30,000,000. -/
theorem C2_setTotal_raw_total_ohio_scenario :
    (∀ (s : SubmarineState) (nt : ℚ),
      (s.setCurrentTotalWaterMass nt).currentTotalWaterMass = nt) ∧
      initOhio.constants.ballastTankCapacity = 19764000 ∧
      initOhio.state.currentWaterMassFrontTank = 0 ∧
      initOhio.state.currentWaterMassBackTank = 0 ∧
      (initOhio.state.setCurrentTotalWaterMass
        30000000).currentWaterMassFrontTank = 9882000 ∧
      (initOhio.state.setCurrentTotalWaterMass
        30000000).currentWaterMassBackTank = 9882000 ∧
      (initOhio.state.setCurrentTotalWaterMass
        30000000).currentTotalWaterMass = 30000000 := by
  refine ⟨fun s nt => (setCurrentTotalWaterMass_char s nt).2.2,
    ?_, ?_, ?_, ?_, ?_, ?_⟩ <;>
    norm_num [SubmarineState.setCurrentTotalWaterMass,
      SubmarineState.autoSetCenterOfMass, SubmarineState.setCenterOfMass,
      initOhio, SubmarineConstants.getBallastTankCapacity,
      SubmarineConstants.getLength, Vec3.set, min_def, max_def]

/-- C5: the direct tank setters assign the requested value without clamping,
leave the other tank unchanged, and store the sum of the two tanks as the
total; in particular, setting the front tank to 5,000,000 with prior back mass
2,000,000 yields a total of 7,000,000, and a value beyond the per-tank maximum
(19,764,000 on Ohio) is stored as is. -/
theorem C5_direct_setters_unclamped :
    (∀ (s : SubmarineState) (v : ℚ),
      (s.setCurrentWaterMassFrontTank v).currentWaterMassFrontTank = v ∧
        (s.setCurrentWaterMassFrontTank v).currentWaterMassBackTank =
          s.currentWaterMassBackTank ∧
        (s.setCurrentWaterMassFrontTank v).currentTotalWaterMass =
          v + s.currentWaterMassBackTank) ∧
      (∀ (s : SubmarineState) (v : ℚ),
        (s.setCurrentWaterMassBackTank v).currentWaterMassBackTank = v ∧
          (s.setCurrentWaterMassBackTank v).currentWaterMassFrontTank =
            s.currentWaterMassFrontTank ∧
          (s.setCurrentWaterMassBackTank v).currentTotalWaterMass =
            v + s.currentWaterMassFrontTank) ∧
      ((initOhio.state.setCurrentWaterMassBackTank
          2000000).setCurrentWaterMassFrontTank
            5000000).currentTotalWaterMass = 7000000 ∧
      ((initOhio.state.setCurrentWaterMassBackTank
          2000000).setCurrentWaterMassFrontTank
            5000000).currentWaterMassFrontTank = 5000000 ∧
      (initOhio.state.setCurrentWaterMassFrontTank
        19764000).currentWaterMassFrontTank = 19764000 := by
  refine ⟨setCurrentWaterMassFrontTank_char, setCurrentWaterMassBackTank_char,
    ?_, ?_, ?_⟩ <;>
    norm_num [SubmarineState.setCurrentWaterMassFrontTank,
      SubmarineState.setCurrentWaterMassBackTank,
      SubmarineState.getCurrentWaterMassFrontTank,
      SubmarineState.getCurrentWaterMassBackTank,
      SubmarineState.autoSetCenterOfMass, SubmarineState.setCenterOfMass,
      initOhio, SubmarineConstants.getBallastTankCapacity,
      SubmarineConstants.getLength, Vec3.set]

/-- C10: for every starting tank state, including out-of-range tank masses,
and every requested total, the final clamp of `setCurrentTotalWaterMass`
leaves both tank masses in `[0, ballastTankCapacity/2]` (given a nonnegative
capacity). -/
theorem C10_setTotal_reestablishes_bounds (s : SubmarineState) (nt : ℚ)
    (hc : 0 ≤ s.submarineConstants.ballastTankCapacity) :
    0 ≤ (s.setCurrentTotalWaterMass nt).currentWaterMassFrontTank ∧
      (s.setCurrentTotalWaterMass nt).currentWaterMassFrontTank ≤
        s.submarineConstants.ballastTankCapacity / 2 ∧
      0 ≤ (s.setCurrentTotalWaterMass nt).currentWaterMassBackTank ∧
      (s.setCurrentTotalWaterMass nt).currentWaterMassBackTank ≤
        s.submarineConstants.ballastTankCapacity / 2 := by
  obtain ⟨hfe, hbe, -⟩ := setCurrentTotalWaterMass_char s nt
  rw [hfe, hbe]
  have hm : 0 ≤ s.submarineConstants.ballastTankCapacity / 2 := by linarith
  exact ⟨(clamp_bounds _ _ hm).1, (clamp_bounds _ _ hm).2,
    (clamp_bounds _ _ hm).1, (clamp_bounds _ _ hm).2⟩

/-- Witness for C10: a state with an out-of-range front tank (the Ohio state
after the unclamped direct write of 19,764,000) and a negative requested
total. -/
theorem C10_witness :
    0 ≤ ((initOhio.state.setCurrentWaterMassFrontTank
        19764000).setCurrentTotalWaterMass (-5)).currentWaterMassFrontTank ∧
      ((initOhio.state.setCurrentWaterMassFrontTank
          19764000).setCurrentTotalWaterMass (-5)).currentWaterMassFrontTank ≤
        (initOhio.state.setCurrentWaterMassFrontTank
          19764000).submarineConstants.ballastTankCapacity / 2 ∧
      0 ≤ ((initOhio.state.setCurrentWaterMassFrontTank
        19764000).setCurrentTotalWaterMass (-5)).currentWaterMassBackTank ∧
      ((initOhio.state.setCurrentWaterMassFrontTank
          19764000).setCurrentTotalWaterMass (-5)).currentWaterMassBackTank ≤
        (initOhio.state.setCurrentWaterMassFrontTank
          19764000).submarineConstants.ballastTankCapacity / 2 :=
  C10_setTotal_reestablishes_bounds
    (initOhio.state.setCurrentWaterMassFrontTank 19764000) (-5)
    (by norm_num [SubmarineState.setCurrentWaterMassFrontTank,
      SubmarineState.getCurrentWaterMassBackTank,
      SubmarineState.autoSetCenterOfMass, SubmarineState.setCenterOfMass,
      initOhio, SubmarineConstants.getBallastTankCapacity,
      SubmarineConstants.getLength, Vec3.set])

/-- C3 counterexample: on the Ohio preset, after
`setCurrentTotalWaterMass(30,000,000)` the stored total (30,000,000) differs
from the clamped tank sum (19,764,000), so the invariant does not hold after
every mutating ballast operation. -/
theorem C3_counterexample :
    (initOhio.state.setCurrentTotalWaterMass 30000000).currentTotalWaterMass ≠
      (initOhio.state.setCurrentTotalWaterMass
        30000000).currentWaterMassFrontTank +
      (initOhio.state.setCurrentTotalWaterMass
        30000000).currentWaterMassBackTank := by
  norm_num [SubmarineState.setCurrentTotalWaterMass,
    SubmarineState.autoSetCenterOfMass, SubmarineState.setCenterOfMass,
    initOhio, SubmarineConstants.getBallastTankCapacity,
    SubmarineConstants.getLength, Vec3.set, min_def, max_def]

/-- C3 amended: the invariant `currentTotalWaterMass = front + back` holds
after every call of the two direct tank setters, and after
`setCurrentTotalWaterMass` whenever the starting tank masses lie in
`[0, ballastTankCapacity/2]` and the requested total lies in
`[0, ballastTankCapacity]`; it can fail for `setCurrentTotalWaterMass` with an
out-of-range request. -/
theorem C3_amended_total_eq_sum :
    (∀ (s : SubmarineState) (v : ℚ),
      (s.setCurrentWaterMassFrontTank v).currentTotalWaterMass =
        (s.setCurrentWaterMassFrontTank v).currentWaterMassFrontTank +
        (s.setCurrentWaterMassFrontTank v).currentWaterMassBackTank) ∧
      (∀ (s : SubmarineState) (v : ℚ),
        (s.setCurrentWaterMassBackTank v).currentTotalWaterMass =
          (s.setCurrentWaterMassBackTank v).currentWaterMassFrontTank +
          (s.setCurrentWaterMassBackTank v).currentWaterMassBackTank) ∧
      (∀ (s : SubmarineState) (nt : ℚ),
        0 ≤ s.currentWaterMassFrontTank →
        s.currentWaterMassFrontTank ≤
          s.submarineConstants.ballastTankCapacity / 2 →
        0 ≤ s.currentWaterMassBackTank →
        s.currentWaterMassBackTank ≤
          s.submarineConstants.ballastTankCapacity / 2 →
        0 ≤ nt → nt ≤ s.submarineConstants.ballastTankCapacity →
        (s.setCurrentTotalWaterMass nt).currentTotalWaterMass =
          (s.setCurrentTotalWaterMass nt).currentWaterMassFrontTank +
          (s.setCurrentTotalWaterMass nt).currentWaterMassBackTank) := by
  refine ⟨?_, ?_, ?_⟩
  · intro s v
    obtain ⟨h1, h2, h3⟩ := setCurrentWaterMassFrontTank_char s v
    rw [h1, h2, h3]
  · intro s v
    obtain ⟨h1, h2, h3⟩ := setCurrentWaterMassBackTank_char s v
    rw [h1, h2, h3, add_comm]
  · intro s nt hf0 hf1 hb0 hb1 hn0 hn1
    obtain ⟨hfe, hbe, hte⟩ := setCurrentTotalWaterMass_char s nt
    rw [hfe, hbe, hte]
    have hspec := clampSpill_spec s.currentWaterMassFrontTank
      s.currentWaterMassBackTank
      (s.submarineConstants.ballastTankCapacity / 2) nt hf0 hf1 hb0 hb1 hn0
      (by linarith) _ _ _ _ _ _ rfl rfl rfl rfl rfl rfl
    exact hspec.1.symm

/-- Witness for C3 amended: the in-range branch applied on the Ohio preset
state with requested total 1000. -/
theorem C3_witness :
    (initOhio.state.setCurrentTotalWaterMass 1000).currentTotalWaterMass =
      (initOhio.state.setCurrentTotalWaterMass
        1000).currentWaterMassFrontTank +
      (initOhio.state.setCurrentTotalWaterMass
        1000).currentWaterMassBackTank :=
  C3_amended_total_eq_sum.2.2 initOhio.state 1000
    (by norm_num [initOhio]) (by norm_num [initOhio]) (by norm_num [initOhio])
    (by norm_num [initOhio]) (by norm_num) (by norm_num [initOhio])

/-- C4 counterexample: from the Ohio preset state (valid tank masses), the
direct setter `setCurrentWaterMassFrontTank(19,764,000)` leaves the front tank
above the per-tank maximum 9,882,000, so the bounds do not hold after every
setter call. -/
theorem C4_counterexample :
    ¬ ((initOhio.state.setCurrentWaterMassFrontTank
        19764000).currentWaterMassFrontTank ≤
      initOhio.state.submarineConstants.ballastTankCapacity / 2) := by
  norm_num [SubmarineState.setCurrentWaterMassFrontTank,
    SubmarineState.getCurrentWaterMassBackTank,
    SubmarineState.autoSetCenterOfMass, SubmarineState.setCenterOfMass,
    initOhio, SubmarineConstants.getBallastTankCapacity,
    SubmarineConstants.getLength, Vec3.set]

/-- C4 amended: after `setCurrentTotalWaterMass` with any argument the tank
bounds hold (from valid starting tanks); after a direct tank setter they hold
exactly when the assigned value itself lies in `[0, ballastTankCapacity/2]`,
since the direct setters write the value unclamped. -/
theorem C4_amended_bounds :
    (∀ (s : SubmarineState) (nt : ℚ),
      0 ≤ s.currentWaterMassFrontTank →
      s.currentWaterMassFrontTank ≤
        s.submarineConstants.ballastTankCapacity / 2 →
      0 ≤ (s.setCurrentTotalWaterMass nt).currentWaterMassFrontTank ∧
        (s.setCurrentTotalWaterMass nt).currentWaterMassFrontTank ≤
          s.submarineConstants.ballastTankCapacity / 2 ∧
        0 ≤ (s.setCurrentTotalWaterMass nt).currentWaterMassBackTank ∧
        (s.setCurrentTotalWaterMass nt).currentWaterMassBackTank ≤
          s.submarineConstants.ballastTankCapacity / 2) ∧
      (∀ (s : SubmarineState) (v : ℚ),
        0 ≤ s.currentWaterMassBackTank →
        s.currentWaterMassBackTank ≤
          s.submarineConstants.ballastTankCapacity / 2 →
        0 ≤ v → v ≤ s.submarineConstants.ballastTankCapacity / 2 →
        0 ≤ (s.setCurrentWaterMassFrontTank v).currentWaterMassFrontTank ∧
          (s.setCurrentWaterMassFrontTank v).currentWaterMassFrontTank ≤
            s.submarineConstants.ballastTankCapacity / 2 ∧
          0 ≤ (s.setCurrentWaterMassFrontTank v).currentWaterMassBackTank ∧
          (s.setCurrentWaterMassFrontTank v).currentWaterMassBackTank ≤
            s.submarineConstants.ballastTankCapacity / 2) ∧
      (∀ (s : SubmarineState) (v : ℚ),
        0 ≤ s.currentWaterMassFrontTank →
        s.currentWaterMassFrontTank ≤
          s.submarineConstants.ballastTankCapacity / 2 →
        0 ≤ v → v ≤ s.submarineConstants.ballastTankCapacity / 2 →
        0 ≤ (s.setCurrentWaterMassBackTank v).currentWaterMassBackTank ∧
          (s.setCurrentWaterMassBackTank v).currentWaterMassBackTank ≤
            s.submarineConstants.ballastTankCapacity / 2 ∧
          0 ≤ (s.setCurrentWaterMassBackTank v).currentWaterMassFrontTank ∧
          (s.setCurrentWaterMassBackTank v).currentWaterMassFrontTank ≤
            s.submarineConstants.ballastTankCapacity / 2) := by
  refine ⟨?_, ?_, ?_⟩
  · intro s nt hf0 hf1
    obtain ⟨hfe, hbe, -⟩ := setCurrentTotalWaterMass_char s nt
    rw [hfe, hbe]
    have hm : 0 ≤ s.submarineConstants.ballastTankCapacity / 2 := by linarith
    exact ⟨(clamp_bounds _ _ hm).1, (clamp_bounds _ _ hm).2,
      (clamp_bounds _ _ hm).1, (clamp_bounds _ _ hm).2⟩
  · intro s v hb0 hb1 hv0 hv1
    obtain ⟨h1, h2, -⟩ := setCurrentWaterMassFrontTank_char s v
    rw [h1, h2]
    exact ⟨hv0, hv1, hb0, hb1⟩
  · intro s v hf0 hf1 hv0 hv1
    obtain ⟨h1, h2, -⟩ := setCurrentWaterMassBackTank_char s v
    rw [h1, h2]
    exact ⟨hv0, hv1, hf0, hf1⟩

/-- Witness for C4 amended: the total setter branch on the Ohio preset state
with an out-of-range request of 30,000,000. -/
theorem C4_witness :
    0 ≤ (initOhio.state.setCurrentTotalWaterMass
        30000000).currentWaterMassFrontTank ∧
      (initOhio.state.setCurrentTotalWaterMass
          30000000).currentWaterMassFrontTank ≤
        initOhio.state.submarineConstants.ballastTankCapacity / 2 ∧
      0 ≤ (initOhio.state.setCurrentTotalWaterMass
        30000000).currentWaterMassBackTank ∧
      (initOhio.state.setCurrentTotalWaterMass
          30000000).currentWaterMassBackTank ≤
        initOhio.state.submarineConstants.ballastTankCapacity / 2 :=
  C4_amended_bounds.1 initOhio.state 30000000
    (by norm_num [initOhio]) (by norm_num [initOhio])

/-- Specification of the derived center of mass relative to a state's own tank
masses and constants: the stored vector equals
`(0, 0, (front − back) / (ballastTankCapacity/2) × length/4)`, its z component
has the sign of `front − back`, and its magnitude is
`|front − back| / (ballastTankCapacity/2) × length/4`. -/
def CenterOfMassSpec (s : SubmarineState) : Prop :=
  s.centerOfMass = ⟨0, 0,
    (s.currentWaterMassFrontTank - s.currentWaterMassBackTank) /
      (s.submarineConstants.getBallastTankCapacity / 2) *
      (s.submarineConstants.getLength / 4)⟩ ∧
  (0 < s.currentWaterMassFrontTank - s.currentWaterMassBackTank →
    0 < s.centerOfMass.z) ∧
  (s.currentWaterMassFrontTank = s.currentWaterMassBackTank →
    s.centerOfMass.z = 0) ∧
  (s.currentWaterMassFrontTank - s.currentWaterMassBackTank < 0 →
    s.centerOfMass.z < 0) ∧
  |s.centerOfMass.z| =
    |s.currentWaterMassFrontTank - s.currentWaterMassBackTank| /
      (s.submarineConstants.getBallastTankCapacity / 2) *
      (s.submarineConstants.getLength / 4)

theorem comSpec_autoSet (s : SubmarineState)
    (hc : 0 < s.submarineConstants.ballastTankCapacity)
    (hl : 0 < s.submarineConstants.length) :
    CenterOfMassSpec s.autoSetCenterOfMass := by
  have hm : 0 < s.submarineConstants.getBallastTankCapacity / 2 := by
    simp only [SubmarineConstants.getBallastTankCapacity]
    linarith
  have hq : 0 < s.submarineConstants.getLength / 4 := by
    simp only [SubmarineConstants.getLength]
    linarith
  unfold CenterOfMassSpec
  rw [autoSetCenterOfMass_com, autoSetCenterOfMass_front,
    autoSetCenterOfMass_back, autoSetCenterOfMass_constants]
  dsimp only
  refine ⟨rfl, ?_, ?_, ?_, ?_⟩
  · intro h
    exact mul_pos (div_pos h hm) hq
  · intro h
    rw [h, sub_self, zero_div, zero_mul]
  · intro h
    exact mul_neg_of_neg_of_pos (div_neg_of_neg_of_pos h hm) hq
  · rw [abs_mul, abs_div, abs_of_pos hm, abs_of_pos hq]

/-- C6: after each of the three ballast-mutating setters, the center of mass
equals `(0, 0, ((front − back) / (ballastTankCapacity/2)) × length/4)` with
sign matching `front − back` and magnitude
`|front − back| / (ballastTankCapacity/2) × length/4`, by the identical
formula in both the front-heavy and back-heavy cases. -/
theorem C6_centerOfMass_formula (s : SubmarineState) (v : ℚ)
    (hc : 0 < s.submarineConstants.ballastTankCapacity)
    (hl : 0 < s.submarineConstants.length) :
    CenterOfMassSpec (s.setCurrentTotalWaterMass v) ∧
      CenterOfMassSpec (s.setCurrentWaterMassFrontTank v) ∧
      CenterOfMassSpec (s.setCurrentWaterMassBackTank v) := by
  refine ⟨?_, ?_, ?_⟩
  · unfold SubmarineState.setCurrentTotalWaterMass
    exact comSpec_autoSet _ hc hl
  · unfold SubmarineState.setCurrentWaterMassFrontTank
    exact comSpec_autoSet _ hc hl
  · unfold SubmarineState.setCurrentWaterMassBackTank
    exact comSpec_autoSet _ hc hl

/-- Witness for C6: the Ohio preset state (capacity 19,764,000, length 170)
with argument 1000. -/
theorem C6_witness :
    CenterOfMassSpec (initOhio.state.setCurrentTotalWaterMass 1000) ∧
      CenterOfMassSpec (initOhio.state.setCurrentWaterMassFrontTank 1000) ∧
      CenterOfMassSpec (initOhio.state.setCurrentWaterMassBackTank 1000) :=
  C6_centerOfMass_formula initOhio.state 1000
    (by norm_num [initOhio]) (by norm_num [initOhio])

theorem cross_dot_left (a b : Vec3) : (a.cross b).dot a = 0 := by
  simp only [Vec3.cross, Vec3.dot]
  ring

theorem cross_dot_right (a b : Vec3) : (a.cross b).dot b = 0 := by
  simp only [Vec3.cross, Vec3.dot]
  ring

theorem cross_norm_sq (a b : Vec3) :
    (a.cross b).dot (a.cross b) = a.dot a * b.dot b - a.dot b ^ 2 := by
  simp only [Vec3.cross, Vec3.dot]
  ring

theorem applyQ_forward_norm (q : Quat) (h : q.IsUnit) :
    ((Vec3.mk 0 0 1).applyQuaternion q).dot
      ((Vec3.mk 0 0 1).applyQuaternion q) = 1 := by
  obtain ⟨x, y, z, w⟩ := q
  simp only [Quat.IsUnit] at h
  simp only [Vec3.applyQuaternion, Vec3.dot]
  ring_nf
  linear_combination (4 * (x ^ 2 + y ^ 2)) * h

theorem applyQ_up_norm (q : Quat) (h : q.IsUnit) :
    ((Vec3.mk 0 1 0).applyQuaternion q).dot
      ((Vec3.mk 0 1 0).applyQuaternion q) = 1 := by
  obtain ⟨x, y, z, w⟩ := q
  simp only [Quat.IsUnit] at h
  simp only [Vec3.applyQuaternion, Vec3.dot]
  ring_nf
  linear_combination (4 * (x ^ 2 + z ^ 2)) * h

theorem applyQ_up_forward_orth (q : Quat) (h : q.IsUnit) :
    ((Vec3.mk 0 1 0).applyQuaternion q).dot
      ((Vec3.mk 0 0 1).applyQuaternion q) = 0 := by
  obtain ⟨x, y, z, w⟩ := q
  simp only [Quat.IsUnit] at h
  simp only [Vec3.applyQuaternion, Vec3.dot]
  ring_nf
  linear_combination (-4 * y * z) * h

/-- C7: for a unit-quaternion orientation, `getForwardAxis` is the rotation of
`(0,0,1)`, `getUpAxis` is the rotation of `(0,1,0)`, `getRightAxis` is exactly
`upAxis × forwardAxis` in that operand order, and the three axes are mutually
orthonormal unit vectors. -/
theorem C7_body_axes_orthonormal (s : SubmarineState)
    (h : s.currentOrientation.IsUnit) :
    s.getForwardAxis =
        (Vec3.mk 0 0 1).applyQuaternion s.getCurrentOrientation ∧
      s.getUpAxis = (Vec3.mk 0 1 0).applyQuaternion s.getCurrentOrientation ∧
      s.getRightAxis = s.getUpAxis.cross s.getForwardAxis ∧
      s.getForwardAxis.dot s.getForwardAxis = 1 ∧
      s.getUpAxis.dot s.getUpAxis = 1 ∧
      s.getRightAxis.dot s.getRightAxis = 1 ∧
      s.getUpAxis.dot s.getForwardAxis = 0 ∧
      s.getRightAxis.dot s.getUpAxis = 0 ∧
      s.getRightAxis.dot s.getForwardAxis = 0 := by
  have hu : s.getCurrentOrientation.IsUnit := h
  have hf := applyQ_forward_norm _ hu
  have hup := applyQ_up_norm _ hu
  have ho := applyQ_up_forward_orth _ hu
  refine ⟨rfl, rfl, rfl, hf, hup, ?_, ho, ?_, ?_⟩
  · have hl : s.getRightAxis.dot s.getRightAxis =
        s.getUpAxis.dot s.getUpAxis * (s.getForwardAxis.dot s.getForwardAxis) -
          s.getUpAxis.dot s.getForwardAxis ^ 2 :=
      cross_norm_sq s.getUpAxis s.getForwardAxis
    rw [hl]
    rw [show s.getUpAxis.dot s.getUpAxis = 1 from hup,
      show s.getForwardAxis.dot s.getForwardAxis = 1 from hf,
      show s.getUpAxis.dot s.getForwardAxis = 0 from ho]
    norm_num
  · exact cross_dot_left s.getUpAxis s.getForwardAxis
  · exact cross_dot_right s.getUpAxis s.getForwardAxis

/-- Witness for C7: the Ohio preset state, whose orientation is the identity
quaternion. -/
theorem C7_witness :
    initOhio.state.getForwardAxis =
        (Vec3.mk 0 0 1).applyQuaternion initOhio.state.getCurrentOrientation ∧
      initOhio.state.getUpAxis =
        (Vec3.mk 0 1 0).applyQuaternion initOhio.state.getCurrentOrientation ∧
      initOhio.state.getRightAxis =
        initOhio.state.getUpAxis.cross initOhio.state.getForwardAxis ∧
      initOhio.state.getForwardAxis.dot initOhio.state.getForwardAxis = 1 ∧
      initOhio.state.getUpAxis.dot initOhio.state.getUpAxis = 1 ∧
      initOhio.state.getRightAxis.dot initOhio.state.getRightAxis = 1 ∧
      initOhio.state.getUpAxis.dot initOhio.state.getForwardAxis = 0 ∧
      initOhio.state.getRightAxis.dot initOhio.state.getUpAxis = 0 ∧
      initOhio.state.getRightAxis.dot initOhio.state.getForwardAxis = 0 :=
  C7_body_axes_orthonormal initOhio.state
    (by norm_num [initOhio, Quat.IsUnit, Quat.identity])

theorem alloc_read_fresh (h : Heap) (u : HVal) :
    (h.alloc u).1.read (h.alloc u).2 = u := by
  simp [Heap.alloc, Heap.read]

theorem write_fresh_read (h : Heap) (u v : HVal) (t : Nat) (ht : t < h.next) :
    ((h.alloc u).1.write (h.alloc u).2 v).read t = h.read t := by
  simp only [Heap.alloc, Heap.write, Heap.read]
  rw [if_neg (Nat.ne_of_lt ht), if_neg (Nat.ne_of_lt ht)]

/-- C8 counterexample: `getCenterOfMass` returns the internal reference, so
mutating the returned object changes the internal state: on a concrete heap
and state, writing through the result of `getCenterOfMass` changes what the
internal `centerOfMass` field reads. -/
theorem C8_counterexample :
    ((stateH0.getCenterOfMass heap0).1.write (stateH0.getCenterOfMass heap0).2
        (HVal.vec3 ⟨1, 2, 3⟩)).read stateH0.centerOfMass ≠
      heap0.read stateH0.centerOfMass := by
  simp [SubmarineStateH.getCenterOfMass, Heap.write, Heap.read, heap0, stateH0]

/-- C8 amended: `getCurrentSpeed`, `getCurrentPosition` and
`getCurrentOrientation` return fresh copies, so mutating the returned object
leaves every internal field unchanged; `getCenterOfMass` and
`getMomentOfInertia` return the internal owned reference, so a mutation
through them is a mutation of the internal state. -/
theorem C8_amended_getter_copies (s : SubmarineStateH) (h : Heap) (v : HVal)
    (hwf : s.WF h) :
    ((s.getCurrentSpeed h).1.read (s.getCurrentSpeed h).2 =
        h.read s.currentSpeed ∧
      ((s.getCurrentSpeed h).1.write (s.getCurrentSpeed h).2 v).read
        s.currentSpeed = h.read s.currentSpeed ∧
      (∀ t, t < h.next →
        ((s.getCurrentSpeed h).1.write (s.getCurrentSpeed h).2 v).read t =
          h.read t)) ∧
    ((s.getCurrentPosition h).1.read (s.getCurrentPosition h).2 =
        h.read s.currentPosition ∧
      ((s.getCurrentPosition h).1.write (s.getCurrentPosition h).2 v).read
        s.currentPosition = h.read s.currentPosition ∧
      (∀ t, t < h.next →
        ((s.getCurrentPosition h).1.write (s.getCurrentPosition h).2 v).read t
          = h.read t)) ∧
    ((s.getCurrentOrientation h).1.read (s.getCurrentOrientation h).2 =
        h.read s.currentOrientation ∧
      ((s.getCurrentOrientation h).1.write
        (s.getCurrentOrientation h).2 v).read s.currentOrientation =
        h.read s.currentOrientation ∧
      (∀ t, t < h.next →
        ((s.getCurrentOrientation h).1.write
          (s.getCurrentOrientation h).2 v).read t = h.read t)) ∧
    (s.getCenterOfMass h).2 = s.centerOfMass ∧
    (s.getMomentOfInertia h).2 = s.momentOfInertia ∧
    ((s.getCenterOfMass h).1.write (s.getCenterOfMass h).2 v).read
      s.centerOfMass = v ∧
    ((s.getMomentOfInertia h).1.write (s.getMomentOfInertia h).2 v).read
      s.momentOfInertia = v := by
  refine ⟨⟨alloc_read_fresh h _, write_fresh_read h _ v _ hwf.1,
      fun t ht => write_fresh_read h _ v t ht⟩,
    ⟨alloc_read_fresh h _, write_fresh_read h _ v _ hwf.2.2.1,
      fun t ht => write_fresh_read h _ v t ht⟩,
    ⟨alloc_read_fresh h _, write_fresh_read h _ v _ hwf.2.2.2.1,
      fun t ht => write_fresh_read h _ v t ht⟩,
    rfl, rfl, ?_, ?_⟩ <;>
    simp [SubmarineStateH.getCenterOfMass, SubmarineStateH.getMomentOfInertia,
      Heap.write, Heap.read]

/-- Witness for C8 amended: the concrete eight-cell heap and reference
state. -/
theorem C8_witness :
    ((stateH0.getCurrentSpeed heap0).1.read (stateH0.getCurrentSpeed heap0).2 =
        heap0.read stateH0.currentSpeed ∧
      ((stateH0.getCurrentSpeed heap0).1.write
        (stateH0.getCurrentSpeed heap0).2 (HVal.vec3 ⟨4, 5, 6⟩)).read
        stateH0.currentSpeed = heap0.read stateH0.currentSpeed ∧
      (∀ t, t < heap0.next →
        ((stateH0.getCurrentSpeed heap0).1.write
          (stateH0.getCurrentSpeed heap0).2 (HVal.vec3 ⟨4, 5, 6⟩)).read t =
          heap0.read t)) ∧
    ((stateH0.getCurrentPosition heap0).1.read
        (stateH0.getCurrentPosition heap0).2 =
        heap0.read stateH0.currentPosition ∧
      ((stateH0.getCurrentPosition heap0).1.write
        (stateH0.getCurrentPosition heap0).2 (HVal.vec3 ⟨4, 5, 6⟩)).read
        stateH0.currentPosition = heap0.read stateH0.currentPosition ∧
      (∀ t, t < heap0.next →
        ((stateH0.getCurrentPosition heap0).1.write
          (stateH0.getCurrentPosition heap0).2 (HVal.vec3 ⟨4, 5, 6⟩)).read t =
          heap0.read t)) ∧
    ((stateH0.getCurrentOrientation heap0).1.read
        (stateH0.getCurrentOrientation heap0).2 =
        heap0.read stateH0.currentOrientation ∧
      ((stateH0.getCurrentOrientation heap0).1.write
        (stateH0.getCurrentOrientation heap0).2 (HVal.vec3 ⟨4, 5, 6⟩)).read
        stateH0.currentOrientation = heap0.read stateH0.currentOrientation ∧
      (∀ t, t < heap0.next →
        ((stateH0.getCurrentOrientation heap0).1.write
          (stateH0.getCurrentOrientation heap0).2
          (HVal.vec3 ⟨4, 5, 6⟩)).read t = heap0.read t)) ∧
    (stateH0.getCenterOfMass heap0).2 = stateH0.centerOfMass ∧
    (stateH0.getMomentOfInertia heap0).2 = stateH0.momentOfInertia ∧
    ((stateH0.getCenterOfMass heap0).1.write
      (stateH0.getCenterOfMass heap0).2 (HVal.vec3 ⟨4, 5, 6⟩)).read
      stateH0.centerOfMass = HVal.vec3 ⟨4, 5, 6⟩ ∧
    ((stateH0.getMomentOfInertia heap0).1.write
      (stateH0.getMomentOfInertia heap0).2 (HVal.vec3 ⟨4, 5, 6⟩)).read
      stateH0.momentOfInertia = HVal.vec3 ⟨4, 5, 6⟩ :=
  C8_amended_getter_copies stateH0 heap0 (HVal.vec3 ⟨4, 5, 6⟩)
    (by constructor <;> simp [stateH0, heap0, SubmarineStateH.WF])

/-- C9 counterexample: switching to an unregistered identifier does not signal
a lookup failure to the caller: it clobbers the current submarine (Typhoon)
with the absent value and still emits the `SwitchSubmarine` notification,
proceeding as if a vehicle had been found. -/
theorem C9_counterexample :
    Subamrines.init.getCurrentSubmarine = some initTyphoon ∧
      (Subamrines.init.switchSubmarine "Nautilus").current = none ∧
      (Subamrines.init.switchSubmarine "Nautilus").events =
        [Event.SwitchSubmarine] := by
  refine ⟨rfl, ?_, rfl⟩
  simp [Subamrines.init, Subamrines.switchSubmarine, SubmarineType.Ohio,
    SubmarineType.Typhoon]

/-- C9 amended: for an unregistered identifier, `getSubmarine` returns the
observable absent-entry value (`none`, JavaScript `undefined`) without
crashing; `switchSubmarine` does not crash either but assigns the absent value
to `current` and still emits the `SwitchSubmarine` notification. -/
theorem C9_amended_lookup_failure (m : Subamrines) (id : String)
    (habs : m.items id = none) :
    m.getSubmarine id = none ∧
      (m.switchSubmarine id).current = none ∧
      (m.switchSubmarine id).events = m.events ++ [Event.SwitchSubmarine] := by
  refine ⟨habs, ?_, rfl⟩
  simp [Subamrines.switchSubmarine, habs]

/-- Witness for C9 amended: the initial registry with the unregistered
identifier "Nautilus". -/
theorem C9_witness :
    Subamrines.init.getSubmarine "Nautilus" = none ∧
      (Subamrines.init.switchSubmarine "Nautilus").current = none ∧
      (Subamrines.init.switchSubmarine "Nautilus").events =
        Subamrines.init.events ++ [Event.SwitchSubmarine] :=
  C9_amended_lookup_failure Subamrines.init "Nautilus"
    (by simp [Subamrines.init, SubmarineType.Ohio, SubmarineType.Typhoon])
